import Mathlib

/-!
Shallow embedding of the Teen-Pregnancy community web application
(`core/views.py`, `core/urls.py`, `teenpregnancy/urls.py`) and proofs about
its routing and view-handler layer.

The data model (`models.py`) and the form classes (`forms.py`) are referenced
by the views but their files are not part of the sources; the definitions that
stand in for them are modelled from the specification and are marked as such
in their doc comments.  Everything else is translated directly from the Python
source.
-/

/-! ## Case-insensitive substring matching (`title__icontains`) -/

/-- Character-list prefix test used to define substring containment. -/
def leadsWith : List Char → List Char → Bool
  | [], _ => true
  | _ :: _, [] => false
  | a :: as, b :: bs => a == b && leadsWith as bs

/-- Substring containment on character lists: `hasSub needle hay` is `true`
iff `needle` occurs contiguously inside `hay`. -/
def hasSub (needle : List Char) : List Char → Bool
  | [] => leadsWith needle []
  | c :: rest => leadsWith needle (c :: rest) || hasSub needle rest

/-- Lower-case a character list. -/
def lowerChars (l : List Char) : List Char := l.map Char.toLower

/-- Semantics of the Django ORM lookup `field__icontains=q` (an external
Persistence Collaborator primitive): case-insensitive substring containment
of `q` in the field value. -/
def icontains (hay q : String) : Bool :=
  hasSub (lowerChars q.data) (lowerChars hay.data)

/-! ## Data model

Modelled from the spec: `core/models.py` is not in the sources; the spec's §3
data model gives `Resource`/`ForumPost` a system-assigned `id`, `title` and
`content`, and `Comment` an owning post and an authoring user reference. -/

/-- The user reference stored on a comment.  Modelled from the spec: the spec
records that the observed code attributes a comment submitted while
unauthenticated to an anonymous/absent user reference. -/
inductive UserRef where
  | anonymous
  | user (username : String)
deriving DecidableEq

structure Resource where
  id : Nat
  title : String
  content : String
deriving DecidableEq

structure ForumPost where
  id : Nat
  title : String
  content : String
deriving DecidableEq

structure Comment where
  id : Nat
  post : Nat
  user : UserRef
  content : String
deriving DecidableEq

/-- A credential record held by the external Auth Collaborator. -/
structure User where
  username : String
  password : String
deriving DecidableEq

/-- The relational store behind the Persistence Collaborator. -/
structure DB where
  resources : List Resource
  forum_posts : List ForumPost
  comments : List Comment
  users : List User
deriving DecidableEq

/-- Session state tracked for a client: `Anonymous` or `Authenticated`. -/
inductive Session where
  | anonymous
  | authenticated (username : String)
deriving DecidableEq

/-- `request.user`: the authenticated user, or the anonymous user reference. -/
def requestUser : Session → UserRef
  | .anonymous => .anonymous
  | .authenticated u => .user u

/-! ## Requests, form data, responses -/

/-- An incoming request to a handler: a GET, or a POST carrying form data. -/
inductive HttpReq (α : Type) where
  | get
  | post (data : α)
deriving DecidableEq

/-- A Django form object as seen by a template: unbound (fresh GET form) or
bound to submitted data (which then carries its validation errors). -/
inductive FormState (α : Type) where
  | unbound
  | bound (data : α)
deriving DecidableEq

/-- Submitted data for `ResourceForm` and `ForumPostForm` (title, content). -/
structure SubmissionForm where
  title : String
  content : String
deriving DecidableEq

/-- Submitted data for `CommentForm` (the comment body field). -/
structure CommentFormData where
  content : String
deriving DecidableEq

/-- Submitted data for `LoginForm`. -/
structure Credentials where
  username : String
  password : String
deriving DecidableEq

/-- Modelled from the spec: `forms.py` is not in the sources; per §4.3 the
submission forms require `title` and `content` non-empty. -/
def ResourceForm.is_valid (f : SubmissionForm) : Bool :=
  f.title != "" && f.content != ""

/-- Modelled from the spec: `forms.py` is not in the sources; same schema as
`ResourceForm` (title, content non-empty). -/
def ForumPostForm.is_valid (f : SubmissionForm) : Bool :=
  f.title != "" && f.content != ""

/-- Field-level errors carried by a bound, invalid submission form. -/
def ResourceForm.field_errors (f : SubmissionForm) : List String :=
  (if f.title = "" then ["title"] else []) ++
  (if f.content = "" then ["content"] else [])

/-- Modelled from the spec: `forms.py` is not in the sources; the comment
body field is required, so the bound form is valid iff it is non-empty. -/
def CommentForm.is_valid (f : CommentFormData) : Bool :=
  f.content != ""

/-- Modelled from the spec: `forms.py` is not in the sources; `LoginForm`
requires both credential fields to be filled in. -/
def LoginForm.is_valid (c : Credentials) : Bool :=
  c.username != "" && c.password != ""

/-- The unhandled faults the view code can raise (Django model exceptions
escaping the handler, surfaced to the caller as a 500-class error). -/
inductive Fault where
  | doesNotExist (model : String)
deriving DecidableEq

/-- Result payloads returned by the handlers: redirects, or a template
rendered with its context. -/
inductive Response where
  | redirect (name : String)
  | redirectArg (name : String) (arg : Nat)
  | renderResourceDetail (r : Resource)
  | renderForumPostV1 (post : ForumPost)
  | renderForumPost (post : ForumPost) (comments : List Comment)
      (comment_form : FormState CommentFormData)
  | renderSubmitResource (form : FormState SubmissionForm)
  | renderSubmitForumPost (form : FormState SubmissionForm)
  | renderSearch (resources : List Resource) (forum_posts : List ForumPost)
      (query : String)
  | renderSearchV1 (queryField : Option String) (resources : List Resource)
      (forum_posts : List ForumPost)
  | renderLogin (form : FormState Credentials)
deriving DecidableEq

/-! ## Persistence Collaborator primitives -/

/-- `Resource.objects.get(id=i)`: the unique row, or a raised
`Resource.DoesNotExist` if there is none. -/
def Resource.objects_get (db : DB) (i : Nat) : Except Fault Resource :=
  match db.resources.find? (fun r => r.id == i) with
  | some r => .ok r
  | none => .error (.doesNotExist "Resource")

/-- `ForumPost.objects.get(id=i)`: the unique row, or a raised
`ForumPost.DoesNotExist` if there is none. -/
def ForumPost.objects_get (db : DB) (i : Nat) : Except Fault ForumPost :=
  match db.forum_posts.find? (fun p => p.id == i) with
  | some p => .ok p
  | none => .error (.doesNotExist "ForumPost")

/-- `post.comments.all()`: the comments owned by a post, in insertion order. -/
def postComments (db : DB) (post_id : Nat) : List Comment :=
  db.comments.filter (fun c => c.post == post_id)

/-- Fresh autoincrement id for a new resource row. -/
def freshResourceId (db : DB) : Nat :=
  db.resources.foldl (fun m r => Nat.max m r.id) 0 + 1

/-- Fresh autoincrement id for a new forum-post row. -/
def freshForumPostId (db : DB) : Nat :=
  db.forum_posts.foldl (fun m p => Nat.max m p.id) 0 + 1

/-- Fresh autoincrement id for a new comment row. -/
def freshCommentId (db : DB) : Nat :=
  db.comments.foldl (fun m c => Nat.max m c.id) 0 + 1

/-! ## View handlers (from `core/views.py`) -/

/-- `resource_detail`: fetches the resource with `Resource.objects.get` (which
raises `DoesNotExist` for a missing id — there is no `get_object_or_404`
call) and renders the detail template. -/
def resource_detail (db : DB) (resource_id : Nat) : Except Fault Response :=
  match Resource.objects_get db resource_id with
  | .error e => .error e
  | .ok resource => .ok (.renderResourceDetail resource)

/-- First (shadowed) definition of `forum_post_detail`: fetches the post and
renders it without comments or a comment form. -/
def forum_post_detail_v1 (db : DB) (_ : Session)
    (_ : HttpReq CommentFormData) (post_id : Nat) :
    Except Fault (DB × Response) :=
  match ForumPost.objects_get db post_id with
  | .error e => .error e
  | .ok post => .ok (db, .renderForumPostV1 post)

/-- Second (effective) definition of `forum_post_detail`: fetches the post
(raising `DoesNotExist` for a missing id) and its comments; on a POST with a
valid comment form it saves a new comment with `user = request.user` (no
authentication check) and redirects back to the same detail view; otherwise
it renders the detail template with the comments and the comment form. -/
def forum_post_detail (db : DB) (user : Session)
    (req : HttpReq CommentFormData) (post_id : Nat) :
    Except Fault (DB × Response) :=
  match ForumPost.objects_get db post_id with
  | .error e => .error e
  | .ok post =>
    let comments := postComments db post.id
    match req with
    | .post data =>
      if CommentForm.is_valid data then
        .ok ({ db with comments := db.comments ++
                 [⟨freshCommentId db, post.id, requestUser user, data.content⟩] },
             .redirectArg "forum_post_detail" post.id)
      else
        .ok (db, .renderForumPost post comments (.bound data))
    | .get => .ok (db, .renderForumPost post comments .unbound)

/-- `submit_resource`: on a valid POST saves one new resource and redirects
home; on an invalid POST re-renders the bound form; on GET renders an empty
form. -/
def submit_resource (db : DB) (req : HttpReq SubmissionForm) : DB × Response :=
  match req with
  | .post data =>
    if ResourceForm.is_valid data then
      ({ db with resources := db.resources ++
           [⟨freshResourceId db, data.title, data.content⟩] },
       .redirect "home")
    else (db, .renderSubmitResource (.bound data))
  | .get => (db, .renderSubmitResource .unbound)

/-- `submit_forum_post`: same shape as `submit_resource` for forum posts. -/
def submit_forum_post (db : DB) (req : HttpReq SubmissionForm) :
    DB × Response :=
  match req with
  | .post data =>
    if ForumPostForm.is_valid data then
      ({ db with forum_posts := db.forum_posts ++
           [⟨freshForumPostId db, data.title, data.content⟩] },
       .redirect "home")
    else (db, .renderSubmitForumPost (.bound data))
  | .get => (db, .renderSubmitForumPost .unbound)

/-- Modelled from the spec: `forms.py` is not in the sources; `SearchForm`
has a single required `query` field, so the bound form is valid iff a
non-empty value was submitted for it. -/
def SearchForm.is_valid : Option String → Bool
  | some q => q != ""
  | none => false

/-- First (shadowed) definition of `search`: binds `SearchForm` to the GET
data; when the form validates, filters both entity types on
`title__icontains` OR `content__icontains`; otherwise returns the empty
querysets from `objects.none()`. -/
def search_v1 (db : DB) (queryField : Option String) : Response :=
  if SearchForm.is_valid queryField then
    let query := queryField.getD ""
    .renderSearchV1 queryField
      (db.resources.filter (fun r =>
        icontains r.title query || icontains r.content query))
      (db.forum_posts.filter (fun p =>
        icontains p.title query || icontains p.content query))
  else
    .renderSearchV1 queryField [] []

/-- Resources matched by the effective search: `title__icontains=query`. -/
def search_resources (db : DB) (query : String) : List Resource :=
  db.resources.filter (fun r => icontains r.title query)

/-- Forum posts matched by the effective search: `title__icontains=query`. -/
def search_forum_posts (db : DB) (query : String) : List ForumPost :=
  db.forum_posts.filter (fun p => icontains p.title query)

/-- Second (effective) definition of `search`: reads the raw GET parameter
`q` (defaulting to the empty string when absent) and filters both entity
types on `title__icontains` only. -/
def search (db : DB) (qparam : Option String) : Response :=
  let query := qparam.getD ""
  .renderSearch (search_resources db query) (search_forum_posts db query) query

/-! ## Auth handlers -/

/-- `authenticate(request, username=..., password=...)` of the external Auth
Collaborator: the matching user record, if any. -/
def authenticate (db : DB) (c : Credentials) : Option User :=
  db.users.find? (fun u => u.username == c.username && u.password == c.password)

/-- `login_view`: on a POST with a valid form, authenticates; on success,
establishes the authenticated session and redirects home; otherwise falls
through and re-renders the login template with the bound form and the
session unchanged. -/
def login_view (db : DB) (session : Session) (req : HttpReq Credentials) :
    Session × Response :=
  match req with
  | .post data =>
    if LoginForm.is_valid data then
      match authenticate db data with
      | some u => (.authenticated u.username, .redirect "home")
      | none => (session, .renderLogin (.bound data))
    else (session, .renderLogin (.bound data))
  | .get => (session, .renderLogin .unbound)

/-- `django.contrib.auth.logout` of the external Auth Collaborator:
terminates the session unconditionally. -/
def logout (_ : Session) : Session := .anonymous

/-- `logout_view`: calls `logout(request)` and redirects home. -/
def logout_view (session : Session) : Session × Response :=
  (logout session, .redirect "home")

/-! ## Python module binding (`core/views.py` defines several names twice) -/

/-- Tags for the top-level handler definitions of `core/views.py`, one per
`def` statement, in source order. -/
inductive ViewFn where
  | home
  | resource_detail_fn
  | forum_post_detail_v1
  | submit_resource_fn
  | submit_forum_post_fn
  | forum_post_detail_v2
  | signup_v1
  | search_v1
  | signup_v2
  | login_view_v1
  | logout_view_v1
  | signup_v3
  | login_view_v2
  | logout_view_v2
  | search_v2
deriving DecidableEq

/-- The sequence of top-level `def` statements of `core/views.py`, in source
order (name, tag). -/
def viewsModuleDefs : List (String × ViewFn) :=
  [("home", .home),
   ("resource_detail", .resource_detail_fn),
   ("forum_post_detail", .forum_post_detail_v1),
   ("submit_resource", .submit_resource_fn),
   ("submit_forum_post", .submit_forum_post_fn),
   ("forum_post_detail", .forum_post_detail_v2),
   ("signup", .signup_v1),
   ("search", .search_v1),
   ("signup", .signup_v2),
   ("login_view", .login_view_v1),
   ("logout_view", .logout_view_v1),
   ("signup", .signup_v3),
   ("login_view", .login_view_v2),
   ("logout_view", .logout_view_v2),
   ("search", .search_v2)]

/-- Python module-level name binding: each `def` statement rebinds the name,
so an attribute lookup after the module has loaded yields the value of the
last definition. -/
def pythonBind {α : Type} (defs : List (String × α)) (name : String) :
    Option α :=
  defs.foldl (fun acc d => if d.1 = name then some d.2 else acc) none

/-- Semantics attached to the two `search` definition tags. -/
def searchImpl : ViewFn → Option (DB → Option String → Response)
  | .search_v1 => some search_v1
  | .search_v2 => some search
  | _ => none

/-- Semantics attached to the two `forum_post_detail` definition tags. -/
def forumPostDetailImpl :
    ViewFn →
      Option (DB → Session → HttpReq CommentFormData → Nat →
        Except Fault (DB × Response))
  | .forum_post_detail_v1 => some forum_post_detail_v1
  | .forum_post_detail_v2 => some forum_post_detail
  | _ => none

/-! ## Request router (`core/urls.py`) -/

/-- One segment of a `path(...)` pattern: a literal, or an `<int:name>`
converter. -/
inductive Seg where
  | lit (s : String)
  | intParam (pname : String)
deriving DecidableEq

/-- Whether a pattern segment matches a path segment; the `<int:...>`
converter accepts exactly the non-empty digit strings. -/
def matchSeg : Seg → String → Bool
  | .lit s, t => s == t
  | .intParam _, t => !t.isEmpty && t.all Char.isDigit

/-- Whether a whole pattern matches a path, segment by segment. -/
def matchPattern : List Seg → List String → Bool
  | [], [] => true
  | [], _ :: _ => false
  | _ :: _, [] => false
  | s :: ps, t :: ts => matchSeg s t && matchPattern ps ts

/-- A registered route target: one of this app's view functions, or one of
the external framework's class-based auth views registered in
`core/urls.py`. -/
inductive RouteHandler where
  | view (v : ViewFn)
  | authLoginView (template : Option String)
  | authLogoutView
deriving DecidableEq

/-- The ordered route table of `core/urls.py`.  Each `views.x` reference is
the module attribute after loading, i.e. the last definition of `x` (see
`pythonBind` and `views_module_last_def_wins`). -/
def urlpatterns : List (List Seg × RouteHandler) :=
  [([], .view .home),
   ([.lit "resource", .intParam "resource_id"], .view .resource_detail_fn),
   ([.lit "forum", .intParam "post_id"], .view .forum_post_detail_v2),
   ([.lit "submit", .lit "resource"], .view .submit_resource_fn),
   ([.lit "submit", .lit "forum"], .view .submit_forum_post_fn),
   ([.lit "login"], .authLoginView none),
   ([.lit "logout"], .authLogoutView),
   ([.lit "login"], .authLoginView (some "login.html")),
   ([.lit "search"], .view .search_v2),
   ([.lit "signup"], .view .signup_v3),
   ([.lit "login"], .view .login_view_v2),
   ([.lit "logout"], .view .logout_view_v2)]

/-- Modelled from the spec: the URL resolver is the external framework; per
the spec's duplicate-route policy it checks the registered patterns in order
and dispatches to the first one that matches the path. -/
def resolve : List (List Seg × RouteHandler) → List String → Option RouteHandler
  | [], _ => none
  | (p, h) :: rest, path =>
    if matchPattern p path then some h else resolve rest path

/-- Example store used for concrete evaluations. -/
def exampleDb : DB :=
  { resources := [⟨1, "Nutrition Guide", "Eat well"⟩]
    forum_posts := [⟨1, "Welcome", "Hello"⟩]
    comments := []
    users := [⟨"alice", "pw123"⟩] }

/-! ## Theorems -/

/-- Helper: the empty query is an `icontains` match for every string. -/
theorem icontains_empty (t : String) : icontains t "" = true := by
  have h : lowerChars "".data = [] := rfl
  simp only [icontains, h]
  generalize lowerChars t.data = l
  induction l with
  | nil => rfl
  | cons c rest ih => simp [hasSub, leadsWith, ih]

/-- C1: for an id present in the store the detail views return that entity,
but for an id not present they raise the model's `DoesNotExist` exception
(an unhandled fault surfacing as a 500-class error) instead of the
controlled NotFound response the claim requires: the code calls
`objects.get` and never the imported `get_object_or_404`. -/
theorem detail_missing_id_raises_unhandled_fault :
    resource_detail exampleDb 1 =
      .ok (.renderResourceDetail ⟨1, "Nutrition Guide", "Eat well"⟩) ∧
    forum_post_detail exampleDb .anonymous .get 1 =
      .ok (exampleDb, .renderForumPost ⟨1, "Welcome", "Hello"⟩ [] .unbound) ∧
    resource_detail exampleDb 99 = .error (.doesNotExist "Resource") ∧
    forum_post_detail exampleDb .anonymous .get 99 =
      .error (.doesNotExist "ForumPost") :=
  ⟨rfl, rfl, rfl, rfl⟩

/-- C2: a valid authenticated comment POST creates exactly one comment
attached to that post and that user, but an unauthenticated valid POST also
creates a comment — attributed to the anonymous user reference — because
the handler assigns `request.user` without any authentication check,
contradicting the claim that no comment is created. -/
theorem comment_creation_ignores_authentication :
    forum_post_detail exampleDb (.authenticated "alice") (.post ⟨"hi"⟩) 1 =
      .ok ({ exampleDb with comments := [⟨1, 1, .user "alice", "hi"⟩] },
           .redirectArg "forum_post_detail" 1) ∧
    forum_post_detail exampleDb .anonymous (.post ⟨"hi"⟩) 1 =
      .ok ({ exampleDb with comments := [⟨1, 1, .anonymous, "hi"⟩] },
           .redirectArg "forum_post_detail" 1) :=
  ⟨rfl, rfl⟩

/-- C3: for every query `q` the effective search returns exactly the
resources and forum posts whose title contains `q` as a case-insensitive
substring, and when no title contains `q` both result sets are empty. -/
theorem search_returns_exactly_title_matches (db : DB) (q : String) :
    search db (some q) =
      .renderSearch (search_resources db q) (search_forum_posts db q) q ∧
    (∀ r, r ∈ search_resources db q ↔
      r ∈ db.resources ∧ icontains r.title q = true) ∧
    (∀ p, p ∈ search_forum_posts db q ↔
      p ∈ db.forum_posts ∧ icontains p.title q = true) ∧
    ((∀ r ∈ db.resources, icontains r.title q = false) →
     (∀ p ∈ db.forum_posts, icontains p.title q = false) →
      search_resources db q = [] ∧ search_forum_posts db q = []) := by
  refine ⟨rfl, ?_, ?_, ?_⟩
  · intro r
    exact List.mem_filter
  · intro p
    exact List.mem_filter
  · intro hr hp
    constructor
    · rw [search_resources, List.filter_eq_nil_iff]
      intro r hmem
      simp [hr r hmem]
    · rw [search_forum_posts, List.filter_eq_nil_iff]
      intro p hmem
      simp [hp p hmem]

/-- Witness for C3 at concrete inputs: the query `nutrition` matches the
stored resource title case-insensitively, and the query `xyz` matches no
title, so both result sets are empty. -/
theorem search_returns_exactly_title_matches_witness :
    search_resources exampleDb "xyz" = [] ∧
    search_forum_posts exampleDb "xyz" = [] :=
  (search_returns_exactly_title_matches exampleDb "xyz").2.2.2
    (by decide) (by decide)

/-- C4: Python module binding makes the last definition of a repeated name
the one every route dispatches to: the effective `search` is the second,
raw-query-parameter title-only definition, the effective
`forum_post_detail` is the second, comment-handling definition, the earlier
versions are bound by no name at all (unreachable), the two search
semantics genuinely differ (the shadowed one also matches on content), and
in general appending a definition of a name rebinds that name to it. -/
theorem views_module_last_def_wins :
    pythonBind viewsModuleDefs "search" = some .search_v2 ∧
    pythonBind viewsModuleDefs "forum_post_detail" =
      some .forum_post_detail_v2 ∧
    searchImpl .search_v2 = some search ∧
    forumPostDetailImpl .forum_post_detail_v2 = some forum_post_detail ∧
    search_v1 exampleDb (some "eat") ≠ search exampleDb (some "eat") ∧
    (∀ name, pythonBind viewsModuleDefs name ≠ some .search_v1) ∧
    (∀ name, pythonBind viewsModuleDefs name ≠ some .forum_post_detail_v1) ∧
    (∀ (α : Type) (defs : List (String × α)) (name : String) (v : α),
      pythonBind (defs ++ [(name, v)]) name = some v) := by
  refine ⟨rfl, rfl, rfl, rfl, by decide, ?_, ?_, ?_⟩
  · intro name
    simp only [pythonBind, viewsModuleDefs, List.foldl_cons, List.foldl_nil]
    split_ifs <;> simp
  · intro name
    simp only [pythonBind, viewsModuleDefs, List.foldl_cons, List.foldl_nil]
    split_ifs <;> simp
  · intro α defs name v
    simp [pythonBind, List.foldl_append]

/-- C5: a POST with a valid submission form (title and content non-empty)
persists exactly one new entity — the store is extended by one row and
nothing else changes — and redirects home; an invalid POST leaves the store
unchanged and re-renders the submission form bound to the rejected data,
which carries field-level errors. -/
theorem submit_valid_persists_one_and_redirects (db : DB)
    (data : SubmissionForm) :
    (ResourceForm.is_valid data = true →
      submit_resource db (.post data) =
        ({ db with resources := db.resources ++
             [⟨freshResourceId db, data.title, data.content⟩] },
         .redirect "home")) ∧
    (ResourceForm.is_valid data = false →
      submit_resource db (.post data) =
        (db, .renderSubmitResource (.bound data)) ∧
      ResourceForm.field_errors data ≠ []) ∧
    (ForumPostForm.is_valid data = true →
      submit_forum_post db (.post data) =
        ({ db with forum_posts := db.forum_posts ++
             [⟨freshForumPostId db, data.title, data.content⟩] },
         .redirect "home")) ∧
    (ForumPostForm.is_valid data = false →
      submit_forum_post db (.post data) =
        (db, .renderSubmitForumPost (.bound data))) := by
  refine ⟨?_, ?_, ?_, ?_⟩
  · intro hv
    simp [submit_resource, hv]
  · intro hv
    refine ⟨by simp [submit_resource, hv], ?_⟩
    have hcases : data.title = "" ∨ data.content = "" := by
      by_contra hc
      push_neg at hc
      have : ResourceForm.is_valid data = true := by
        simp [ResourceForm.is_valid, hc.1, hc.2]
      simp [this] at hv
    rcases hcases with h1 | h1 <;> simp [ResourceForm.field_errors, h1]
  · intro hv
    simp [submit_forum_post, hv]
  · intro hv
    simp [submit_forum_post, hv]

/-- Witness for C5 at concrete inputs: a valid submission appends one
resource and redirects home; an empty-title submission changes nothing and
re-renders with errors. -/
theorem submit_valid_persists_one_and_redirects_witness :
    submit_resource exampleDb (.post ⟨"T", "C"⟩) =
      ({ exampleDb with resources := exampleDb.resources ++ [⟨2, "T", "C"⟩] },
       .redirect "home") ∧
    submit_resource exampleDb (.post ⟨"", "C"⟩) =
      (exampleDb, .renderSubmitResource (.bound ⟨"", "C"⟩)) ∧
    ResourceForm.field_errors ⟨"", "C"⟩ ≠ [] :=
  ⟨(submit_valid_persists_one_and_redirects exampleDb ⟨"T", "C"⟩).1 (by decide),
   ((submit_valid_persists_one_and_redirects exampleDb ⟨"", "C"⟩).2.1
      (by decide)).1,
   ((submit_valid_persists_one_and_redirects exampleDb ⟨"", "C"⟩).2.1
      (by decide)).2⟩

/-- C6: on an existing post, a POST with a valid comment form ends in a
redirect back to the same post's detail view (redirect-after-POST), while a
POST failing validation re-renders the detail view with the bound invalid
form preserved and the store unchanged — no redirect. -/
theorem comment_post_redirects_to_same_post (db : DB) (s : Session)
    (data : CommentFormData) (pid : Nat) (post : ForumPost)
    (h : ForumPost.objects_get db pid = .ok post) :
    (CommentForm.is_valid data = true →
      forum_post_detail db s (.post data) pid =
        .ok ({ db with comments := db.comments ++
                 [⟨freshCommentId db, post.id, requestUser s, data.content⟩] },
             .redirectArg "forum_post_detail" post.id)) ∧
    (CommentForm.is_valid data = false →
      forum_post_detail db s (.post data) pid =
        .ok (db, .renderForumPost post (postComments db post.id)
               (.bound data))) := by
  constructor
  · intro hv
    simp [forum_post_detail, h, hv]
  · intro hv
    simp [forum_post_detail, h, hv]

/-- Witness for C6 at concrete inputs: a valid comment POST on post 1
redirects to post 1's detail view; an empty comment re-renders the detail
view with the bound form. -/
theorem comment_post_redirects_to_same_post_witness :
    forum_post_detail exampleDb (.authenticated "alice") (.post ⟨"hello"⟩) 1 =
      .ok ({ exampleDb with comments := [⟨1, 1, .user "alice", "hello"⟩] },
           .redirectArg "forum_post_detail" 1) ∧
    forum_post_detail exampleDb (.authenticated "alice") (.post ⟨""⟩) 1 =
      .ok (exampleDb, .renderForumPost ⟨1, "Welcome", "Hello"⟩ [] (.bound ⟨""⟩)) :=
  ⟨(comment_post_redirects_to_same_post exampleDb (.authenticated "alice")
      ⟨"hello"⟩ 1 ⟨1, "Welcome", "Hello"⟩ rfl).1 (by decide),
   (comment_post_redirects_to_same_post exampleDb (.authenticated "alice")
      ⟨""⟩ 1 ⟨1, "Welcome", "Hello"⟩ rfl).2 (by decide)⟩

set_option maxHeartbeats 1600000 in
/-- C7: the route table registers `/login/` three times and `/logout/`
twice; resolution dispatches every matching request to the first-registered
handler, and no path whatsoever dispatches to any of the later duplicate
registrations. -/
theorem duplicate_routes_first_registered_wins :
    urlpatterns.countP (fun e => e.1 == [Seg.lit "login"]) = 3 ∧
    urlpatterns.countP (fun e => e.1 == [Seg.lit "logout"]) = 2 ∧
    resolve urlpatterns ["login"] = some (.authLoginView none) ∧
    resolve urlpatterns ["logout"] = some .authLogoutView ∧
    (∀ path, resolve urlpatterns path ≠
      some (.authLoginView (some "login.html"))) ∧
    (∀ path, resolve urlpatterns path ≠ some (.view .login_view_v2)) ∧
    (∀ path, resolve urlpatterns path ≠ some (.view .logout_view_v2)) := by
  refine ⟨by decide, by decide, rfl, rfl, ?_, ?_, ?_⟩ <;>
    · intro path
      simp only [urlpatterns, resolve]
      split_ifs <;> decide

/-- C8: a POST to `login_view` with a well-formed form and correct
credentials moves the session from Anonymous to Authenticated and redirects
home; with failing credentials the session stays Anonymous and the login
form is re-rendered, and that failure response is the same whatever the
reason authentication failed (it depends only on the submitted data, not
on which field was wrong). -/
theorem login_success_and_uniform_failure (db : DB) (data : Credentials)
    (u : User) :
    (LoginForm.is_valid data = true → authenticate db data = some u →
      login_view db .anonymous (.post data) =
        (.authenticated u.username, .redirect "home")) ∧
    (authenticate db data = none →
      login_view db .anonymous (.post data) =
        (.anonymous, .renderLogin (.bound data))) ∧
    (∀ db2, authenticate db data = none → authenticate db2 data = none →
      login_view db .anonymous (.post data) =
        login_view db2 .anonymous (.post data)) := by
  refine ⟨?_, ?_, ?_⟩
  · intro hv ha
    simp [login_view, hv, ha]
  · intro ha
    cases hv : LoginForm.is_valid data <;> simp [login_view, hv, ha]
  · intro db2 ha hb
    cases hv : LoginForm.is_valid data <;> simp [login_view, hv, ha, hb]

/-- Witness for C8 at concrete inputs: the stored credentials log in and
redirect home; a wrong password leaves the session Anonymous and re-renders
the login form. -/
theorem login_success_and_uniform_failure_witness :
    login_view exampleDb .anonymous (.post ⟨"alice", "pw123"⟩) =
      (.authenticated "alice", .redirect "home") ∧
    login_view exampleDb .anonymous (.post ⟨"alice", "wrong"⟩) =
      (.anonymous, .renderLogin (.bound ⟨"alice", "wrong"⟩)) :=
  ⟨(login_success_and_uniform_failure exampleDb ⟨"alice", "pw123"⟩
      ⟨"alice", "pw123"⟩).1 (by decide) (by decide),
   (login_success_and_uniform_failure exampleDb ⟨"alice", "wrong"⟩
      ⟨"alice", "pw123"⟩).2.1 (by decide)⟩

/-- C9: from every session state, `logout_view` leaves the session Anonymous
and redirects home; it is total (no precondition, no fault) and running it
twice produces the same session state as running it once. -/
theorem logout_unconditional_and_idempotent (s : Session) :
    logout_view s = (.anonymous, .redirect "home") ∧
    (logout_view (logout_view s).1).1 = (logout_view s).1 :=
  ⟨rfl, rfl⟩

/-- C10: the effective search treats an absent `q` parameter exactly like
the empty string, completes without fault, and its single consistent policy
for the empty query is to match every resource and every forum post. -/
theorem search_empty_query_matches_all (db : DB) :
    search db none = search db (some "") ∧
    search db (some "") = .renderSearch db.resources db.forum_posts "" ∧
    search_resources db "" = db.resources ∧
    search_forum_posts db "" = db.forum_posts := by
  have hr : search_resources db "" = db.resources := by
    rw [search_resources, List.filter_eq_self]
    intro r hmem
    exact icontains_empty r.title
  have hp : search_forum_posts db "" = db.forum_posts := by
    rw [search_forum_posts, List.filter_eq_self]
    intro p hmem
    exact icontains_empty p.title
  refine ⟨rfl, ?_, hr, hp⟩
  simp only [search, Option.getD_some, hr, hp]
